import Mathlib

/-!
# GitStarHub sync engine — shallow embedding and verification

This file embeds the repository-synchronization engine of GitStarHub in Lean 4
and proves (or refutes) the specification's claims about it.

Embedding conventions:
* Effectful TypeScript code is modelled by pure functions over an explicit
  environment ("oracle") that supplies the outcome of each external call
  (HTTP fetch, database statement) in call order.  Remote / database state is
  threaded explicitly.
* JavaScript timestamps (`Date.now()`, epoch milliseconds) are `Int`.
* A thrown JavaScript `Error` is modelled as the `Except.error` branch carrying
  the structured data the code inspects (message string, HTTP status,
  rate-limit snapshot).
* Calls to `sleep` are recorded in traces (their durations, in order) so that
  backoff/wait behaviour is part of the verified statements.

Source files embedded:
* `src/lib/github.ts` — `GitHubClient.request`, `getStarredRepos`,
  `getAllStarredRepos`, and the sync module (`withRetry`,
  `syncUserRepositories`).
* `src/lib/db.ts` — `saveRepositoryUpdate`, `saveRepositoryUpdateByGithubId`,
  `getRepositoryByGithubId`, `updateSyncSettings`, `getUsersToSync`.
* the SQL schema (`repository_updates`, `user_sync_settings`,
  `starred_repositories` tables) for the constraint structure behind the
  `ON CONFLICT` clauses.
* the manual-sync route (`POST /api/sync`) cooldown check.
-/

/-! ## String helpers

`Error.message.includes(sub)` from JavaScript, on explicit character lists. -/

/-- Here `leadsChars sub l` is true iff `sub` occurs at the very start of `l`. -/
def leadsChars : List Char → List Char → Bool
  | [], _ => true
  | _ :: _, [] => false
  | a :: as, b :: bs => a == b && leadsChars as bs

/-- Here `memChars sub l` is true iff `sub` occurs contiguously somewhere in `l`. -/
def memChars (sub : List Char) : List Char → Bool
  | [] => leadsChars sub []
  | b :: bs => leadsChars sub (b :: bs) || memChars sub bs

/-- JavaScript `s.includes(sub)`. -/
def strContains (s sub : String) : Bool := memChars sub.data s.data

/-! ## The retry wrapper `withRetry` (src/lib/github.ts sync module, lines 597–627)

```ts
async function withRetry<T>(fn, maxRetries = 3, delayMs = 1000) {
  let lastError = null;
  for (let attempt = 0; attempt < maxRetries; attempt++) {
    try { return await fn(); } catch (error) {
      lastError = error;
      if (error instanceof Error) {
        if (error.message.includes('401') || error.message.includes('Unauthorized')) throw error;
      }
      if (attempt < maxRetries - 1) {
        const delay = delayMs * Math.pow(2, attempt);
        await sleep(delay);
      }
    }
  }
  throw lastError || new Error('Max retries exceeded');
}
```

The wrapped operation `fn` is modelled by an oracle `f : Nat → Except String α`
giving its outcome at each 0-indexed attempt; errors are their message strings. -/

/-- True when the error message marks an authentication failure that
`withRetry` refuses to retry. -/
def isAuthError (msg : String) : Bool :=
  strContains msg "401" || strContains msg "Unauthorized"

/-- Observable outcome of a `withRetry` run: final result, the backoff sleeps
performed (in order, milliseconds), and how many times `fn` was invoked. -/
structure RetryTrace (α : Type) where
  result : Except String α
  sleeps : List Nat
  attempts : Nat
deriving Repr

/-- One step of the `withRetry` loop: `attempt` is the loop counter, `remaining`
is `maxRetries - attempt` (the number of iterations still to run), `lastErr` is
the `lastError` variable. -/
def withRetryGo (f : Nat → Except String α) (delayMs : Nat) :
    (attempt remaining : Nat) → Option String → RetryTrace α
  | _, 0, lastErr => ⟨.error (lastErr.getD "Max retries exceeded"), [], 0⟩
  | attempt, r + 1, _ =>
    match f attempt with
    | .ok v => ⟨.ok v, [], 1⟩
    | .error e =>
      if isAuthError e then
        -- auth errors are rethrown immediately, before any backoff
        ⟨.error e, [], 1⟩
      else if r = 0 then
        -- last iteration: no sleep, loop exits, `throw lastError` (= e)
        ⟨.error e, [], 1⟩
      else
        let t := withRetryGo f delayMs (attempt + 1) r (some e)
        ⟨t.result, (delayMs * 2 ^ attempt) :: t.sleeps, t.attempts + 1⟩

/-- Model of `withRetry(fn, maxRetries, delayMs)` from the sync module. -/
def withRetry (f : Nat → Except String α) (maxRetries : Nat := 3)
    (delayMs : Nat := 1000) : RetryTrace α :=
  withRetryGo f delayMs 0 maxRetries none

/-- C6: A transient failure that succeeds on the 3rd attempt results in exactly
2 backoff delays (1 s then 2 s, i.e. `delayMs * 2^attempt` starting at 1000 ms)
before the success is returned; if all 3 attempts fail transiently, the wrapper
surfaces the last error with no further retry and no third delay. -/
theorem withRetry_backoff_count (f : Nat → Except String Nat) (v : Nat)
    (e0 e1 e2 : String) (h0 : f 0 = .error e0) (h1 : f 1 = .error e1)
    (ha0 : isAuthError e0 = false) (ha1 : isAuthError e1 = false) :
    (f 2 = .ok v → withRetry f = ⟨.ok v, [1000, 2000], 3⟩) ∧
    (f 2 = .error e2 → isAuthError e2 = false →
      withRetry f = ⟨.error e2, [1000, 2000], 3⟩) := by
  constructor
  · intro h2
    simp [withRetry, withRetryGo, h0, h1, h2, ha0, ha1]
  · intro h2 ha2
    simp [withRetry, withRetryGo, h0, h1, h2, ha0, ha1, ha2]

/-- Witness for `withRetry_backoff_count` at a concrete oracle. -/
theorem withRetry_backoff_count_witness :
    withRetry (fun a => if a < 2 then .error "fetch failed" else .ok 7)
      = ⟨.ok 7, [1000, 2000], 3⟩ :=
  (withRetry_backoff_count (fun a => if a < 2 then .error "fetch failed" else .ok 7)
    7 "fetch failed" "fetch failed" "x" rfl rfl rfl rfl).1 rfl

/-- C7: an operation failing with an authentication-error message (containing
"401" or "Unauthorized") is rethrown after exactly 1 attempt, with no backoff
sleep, regardless of the configured retry budget. -/
theorem withRetry_auth_no_retry (f : Nat → Except String Nat) (e : String)
    (maxRetries delayMs : Nat) (hm : 1 ≤ maxRetries) (h0 : f 0 = .error e)
    (ha : isAuthError e = true) :
    withRetry f maxRetries delayMs = ⟨.error e, [], 1⟩ := by
  obtain ⟨r, rfl⟩ : ∃ r, maxRetries = r + 1 :=
    ⟨maxRetries - 1, (Nat.succ_pred_eq_of_pos hm).symm⟩
  simp [withRetry, withRetryGo, h0, ha]

/-- Witness for `withRetry_auth_no_retry`: a 401 message is never retried even
with a budget of 5 attempts. -/
theorem withRetry_auth_no_retry_witness :
    withRetry (fun _ => (.error "Request failed with status 401" : Except String Nat)) 5 1000
      = ⟨.error "Request failed with status 401", [], 1⟩ :=
  withRetry_auth_no_retry _ _ 5 1000 (by decide) rfl (by decide)

/-! ## `GitHubClient.request` (src/lib/github.ts lines 233–319)

The method loops `for (attempt = 0; attempt < 3; attempt++)`.  In each
iteration it performs one `fetch`; the outcome of the `attempt`-th fetch is
supplied by an oracle `script : Nat → AttemptOutcome`.  A `resp` outcome also
carries the value `Date.now()` reads at that iteration (the clock is only read
inside the rate-limit branch).

Branch structure per iteration, exactly as in the source:
* `fetch` throws (network error): caught; not a `GitHubApiError`, so if
  `attempt < maxRetries - 1` sleep `2^attempt * 1000` ms and loop, else fall
  out of the loop and `throw lastError`.
* status 403 with a rate-limit snapshot showing `remaining === 0`:
  `waitTime = reset*1000 - Date.now()`; if `0 < waitTime < 3600000` then
  `sleep(waitTime + 1000)` and `continue` — note `continue` still runs the
  `attempt++` of the `for` loop, so this path consumes an attempt; otherwise
  throw a `GitHubApiError` carrying status 403 and the snapshot (whose `reset`
  field is the reset time).  This throw (and every `GitHubApiError`) is
  rethrown by the `catch` without retry.
* other non-ok status: throw `GitHubApiError(message, status, rateLimit)`,
  rethrown by the `catch` without retry.
* ok: return the body.

After the loop: `throw lastError || new Error('Request failed after retries')`
— and the rate-limit `continue` path never assigns `lastError`. -/

/-- Rate-limit snapshot parsed from the response headers (`reset` is epoch
seconds). -/
structure RateLimitInfo where
  limit : Int
  remaining : Int
  reset : Int
  used : Int
deriving Repr, DecidableEq

/-- Outcome of one `fetch` inside `GitHubClient.request`: either the promise
rejects (network error, message `msg`), or a response arrives with a status,
an optional rate-limit snapshot, a body, and the value `Date.now()` would
return at that point. -/
inductive AttemptOutcome where
  | netErr (msg : String)
  | resp (status : Nat) (rateLimit : Option RateLimitInfo) (body : String) (nowMs : Int)
deriving Repr

/-- Errors escaping `GitHubClient.request`: a `GitHubApiError` (message,
HTTP status, optional rate-limit snapshot) or a plain `Error` with a message. -/
inductive ReqError where
  | apiError (message : String) (status : Nat) (rateLimit : Option RateLimitInfo)
  | genericError (message : String)
deriving Repr, DecidableEq

/-- Observable outcome of a `GitHubClient.request` run: final result, the
sleeps performed (durations in ms, in order) and number of fetches issued. -/
structure ReqTrace where
  result : Except ReqError String
  sleeps : List Int
  fetches : Nat
deriving Repr

/-- The message of the rate-limit-exceeded `GitHubApiError`.  The source
formats the reset time as an ISO date string; the model renders the epoch
seconds, and the snapshot itself (with its `reset` field) is carried in the
error either way. -/
def rateLimitMessage (reset : Int) : String :=
  "GitHub API rate limit exceeded. Resets at " ++ toString reset

/-- One iteration of the retry loop of `GitHubClient.request`; `remaining` is
`maxRetries - attempt` and `lastErr` the `lastError` variable. -/
def requestGo (script : Nat → AttemptOutcome) :
    (attempt remaining : Nat) → Option ReqError → ReqTrace
  | _, 0, lastErr =>
    ⟨.error (lastErr.getD (.genericError "Request failed after retries")), [], 0⟩
  | attempt, r + 1, lastErr =>
    match script attempt with
    | .netErr m =>
      if r = 0 then ⟨.error (.genericError m), [], 1⟩
      else
        let t := requestGo script (attempt + 1) r (some (.genericError m))
        ⟨t.result, ((2 : Int) ^ attempt * 1000) :: t.sleeps, t.fetches + 1⟩
    | .resp status rl body nowMs =>
      match rl with
      | some l =>
        if status = 403 ∧ l.remaining = 0 then
          let wait := l.reset * 1000 - nowMs
          if 0 < wait ∧ wait < 3600000 then
            let t := requestGo script (attempt + 1) r lastErr
            ⟨t.result, (wait + 1000) :: t.sleeps, t.fetches + 1⟩
          else
            ⟨.error (.apiError (rateLimitMessage l.reset) 403 (some l)), [], 1⟩
        else if 200 ≤ status ∧ status < 300 then ⟨.ok body, [], 1⟩
        else ⟨.error (.apiError body status (some l)), [], 1⟩
      | none =>
        if 200 ≤ status ∧ status < 300 then ⟨.ok body, [], 1⟩
        else ⟨.error (.apiError body status none), [], 1⟩

/-- Model of `GitHubClient.request` with its `maxRetries = 3`. -/
def request (script : Nat → AttemptOutcome) : ReqTrace :=
  requestGo script 0 3 none

/-- The retry loop issues at most `remaining` fetches. -/
theorem requestGo_fetches_le (script : Nat → AttemptOutcome) :
    ∀ (r a : Nat) (le : Option ReqError), (requestGo script a r le).fetches ≤ r := by
  intro r
  induction r with
  | zero => intro a le; simp [requestGo]
  | succ n ih =>
    intro a le
    rw [requestGo]
    cases h : script a with
    | netErr m =>
      by_cases hn : n = 0
      · subst hn; simp
      · simp only [hn, if_false]
        exact Nat.succ_le_succ (ih _ _)
    | resp status rl body nowMs =>
      cases rl with
      | none => dsimp only; split <;> simp
      | some l =>
        dsimp only
        split
        · split
          · exact Nat.succ_le_succ (ih _ _)
          · simp
        · split <;> simp

/-- Script refuting C3's "looping indefinitely within this branch, without
consuming the 3-attempt retry budget": rate-limited (403, zero remaining,
wait until reset = 1000 ms, within one hour) on attempts 0–2, and a request
that would succeed from attempt 3 on. -/
def scriptC3 : Nat → AttemptOutcome := fun a =>
  if a < 3 then .resp 403 (some ⟨5000, 0, 1, 0⟩) "rate limited" 0
  else .resp 200 none "ok body" 0

/-- C3 counterexample: if the rate-limit wait branch retried indefinitely
without consuming the 3-attempt budget, `scriptC3` would end in the success at
attempt 3.  Instead the `continue` consumes an attempt each time: the run
performs exactly 3 fetches (sleeping `wait + 1000 = 2000` ms after each) and
then fails with the generic `Request failed after retries` error — the
4th fetch, which would have succeeded, is never issued. -/
theorem request_rate_limit_budget_counterexample :
    request scriptC3
      = ⟨.error (.genericError "Request failed after retries"), [2000, 2000, 2000], 3⟩ ∧
    (request scriptC3).fetches = 3 := ⟨rfl, rfl⟩

/-- C3 (amended): when a request gets a 403 whose rate-limit snapshot shows
zero remaining quota, with `wait = reset*1000 - now`: if `0 < wait < 1 hour`
the client sleeps `wait + 1000` ms and retries the same request, but that retry
consumes one of the 3 attempts (the loop proceeds at attempt 1 with only 2
iterations of budget left, and no run ever issues more than 3 fetches);
if the wait is non-positive or at least one hour, the request fails
immediately with a `GitHubApiError` of status 403 carrying the snapshot and
its reset time. -/
theorem request_rate_limit_behaviour (script : Nat → AttemptOutcome)
    (l : RateLimitInfo) (body : String) (nowMs : Int)
    (h0 : script 0 = .resp 403 (some l) body nowMs) (hrem : l.remaining = 0) :
    ((0 < l.reset * 1000 - nowMs ∧ l.reset * 1000 - nowMs < 3600000) →
      request script = ⟨(requestGo script 1 2 none).result,
        (l.reset * 1000 - nowMs + 1000) :: (requestGo script 1 2 none).sleeps,
        (requestGo script 1 2 none).fetches + 1⟩) ∧
    (¬(0 < l.reset * 1000 - nowMs ∧ l.reset * 1000 - nowMs < 3600000) →
      request script
        = ⟨.error (.apiError (rateLimitMessage l.reset) 403 (some l)), [], 1⟩) ∧
    (∀ s : Nat → AttemptOutcome, (request s).fetches ≤ 3) := by
  refine ⟨?_, ?_, fun s => requestGo_fetches_le s 3 0 none⟩
  · intro hw
    rw [request, requestGo, h0]
    dsimp only
    rw [if_pos ⟨rfl, hrem⟩, if_pos hw]
  · intro hw
    rw [request, requestGo, h0]
    dsimp only
    rw [if_pos ⟨rfl, hrem⟩, if_neg hw]

/-- Script for the witness of `request_rate_limit_behaviour`: one in-range
rate-limited response, then success. -/
def scriptC3W : Nat → AttemptOutcome := fun a =>
  if a = 0 then .resp 403 (some ⟨5000, 0, 1, 0⟩) "rate limited" 0
  else .resp 200 none "ok body" 0

/-- Witness for `request_rate_limit_behaviour`: the rate-limited first attempt
sleeps 2000 ms (wait 1000 + 1000 buffer) and the retry consumes an attempt,
succeeding on the second fetch. -/
theorem request_rate_limit_behaviour_witness :
    request scriptC3W = ⟨.ok "ok body", [2000], 2⟩ :=
  ((request_rate_limit_behaviour scriptC3W ⟨5000, 0, 1, 0⟩ "rate limited" 0
    rfl rfl).1 (by norm_num)).trans rfl

/-! ## Pagination: `getStarredRepos` / `getAllStarredRepos`
(src/lib/github.ts lines 333–391)

The upstream service is modelled as `pages : Nat → List α`, the list of
records it returns for a given 1-indexed page when asked with
`per_page = 100` (the only page size `getAllStarredRepos` uses; the element
type is abstract since the loop never inspects the records). -/

/-- Model of `getStarredRepos(page, perPage)`: one page fetch.  Returns the records and
`hasNextPage`, which the source computes as `data.length === perPage`. -/
def getStarredRepos (pages : Nat → List α) (page perPage : Nat) :
    List α × Bool :=
  let data := pages page
  (data, data.length == perPage)

/-- Observable outcome of a `getAllStarredRepos` run: the accumulated records,
the `(page, cumulative count)` arguments of each `onProgress` call in order,
the number of page fetches, and the number of 100 ms inter-page sleeps. -/
structure FetchAllTrace (α : Type) where
  repos : List α
  progress : List (Nat × Nat)
  pagesFetched : Nat
  interPageSleeps : Nat
deriving Repr, DecidableEq

/-- The `while (hasMore && page <= maxPages)` loop of `getAllStarredRepos`,
entered with `hasMore = true`.  `fuel` bounds the recursion; the top-level
entry supplies `maxPages + 1`, which the `page > maxPages` guard makes
sufficient (the `fuel = 0` branch is unreachable from the entry point). -/
def getAllStarredReposGo (pages : Nat → List α) (maxPages : Nat) :
    (page fuel : Nat) → List α → FetchAllTrace α
  | _, 0, acc => ⟨acc, [], 0, 0⟩
  | page, fuel + 1, acc =>
    if maxPages < page then ⟨acc, [], 0, 0⟩
    else
      let resp := getStarredRepos pages page 100
      let acc' := acc ++ resp.1
      if resp.2 then
        let t := getAllStarredReposGo pages maxPages (page + 1) fuel acc'
        ⟨t.repos, (page, acc'.length) :: t.progress, t.pagesFetched + 1,
          t.interPageSleeps + 1⟩
      else
        ⟨acc', [(page, acc'.length)], 1, 0⟩

/-- Model of `getAllStarredRepos(onProgress, maxPages = 100)`: pages of size 100
starting at page 1, until a short page or the page cap. -/
def getAllStarredRepos (pages : Nat → List α) (maxPages : Nat := 100) :
    FetchAllTrace α :=
  getAllStarredReposGo pages maxPages 1 (maxPages + 1) []

/-- The pagination loop never fetches more than `fuel` pages. -/
theorem getAllStarredReposGo_pages_le (pages : Nat → List α) (maxPages : Nat) :
    ∀ (fuel page : Nat) (acc : List α),
      (getAllStarredReposGo pages maxPages page fuel acc).pagesFetched ≤ fuel := by
  intro fuel
  induction fuel with
  | zero => intro page acc; simp [getAllStarredReposGo]
  | succ n ih =>
    intro page acc
    rw [getAllStarredReposGo]
    split
    · simp
    · dsimp only
      split
      · exact Nat.succ_le_succ (ih _ _)
      · simp

/-- Unrolling lemma: a full page (100 records) at a page within the cap pushes
the records, reports progress `(page, cumulative)`, sleeps once, and continues
with the next page. -/
theorem go_full_page (pages : Nat → List α) (maxPages page fuel : Nat)
    (acc : List α) (hpage : page ≤ maxPages) (hlen : (pages page).length = 100) :
    getAllStarredReposGo pages maxPages page (fuel + 1) acc
      = ⟨(getAllStarredReposGo pages maxPages (page + 1) fuel (acc ++ pages page)).repos,
         (page, acc.length + 100) ::
           (getAllStarredReposGo pages maxPages (page + 1) fuel (acc ++ pages page)).progress,
         (getAllStarredReposGo pages maxPages (page + 1) fuel (acc ++ pages page)).pagesFetched + 1,
         (getAllStarredReposGo pages maxPages (page + 1) fuel (acc ++ pages page)).interPageSleeps + 1⟩ := by
  rw [getAllStarredReposGo]
  rw [if_neg (by omega)]
  simp [getStarredRepos, hlen]

/-- Unrolling lemma: a short page (fewer than 100 records) within the cap ends
the loop after reporting its progress, with no inter-page sleep. -/
theorem go_short_page (pages : Nat → List α) (maxPages page fuel : Nat)
    (acc : List α) (hpage : page ≤ maxPages) (hlen : (pages page).length ≠ 100) :
    getAllStarredReposGo pages maxPages page (fuel + 1) acc
      = ⟨acc ++ pages page, [(page, acc.length + (pages page).length)], 1, 0⟩ := by
  rw [getAllStarredReposGo]
  rw [if_neg (by omega)]
  simp [getStarredRepos, hlen]

/-- The `page <= maxPages` guard caps the number of page fetches at
`maxPages`. -/
theorem getAllStarredRepos_cap (pages : Nat → List α) (maxPages : Nat) :
    (getAllStarredRepos pages maxPages).pagesFetched ≤ maxPages := by
  have key : ∀ (fuel page : Nat) (acc : List α),
      (getAllStarredReposGo pages maxPages page fuel acc).pagesFetched
        ≤ maxPages + 1 - page := by
    intro fuel
    induction fuel with
    | zero => intro page acc; simp [getAllStarredReposGo]
    | succ n ih =>
      intro page acc
      rw [getAllStarredReposGo]
      split
      · simp
      · next h =>
        dsimp only
        split
        · have := ih (page + 1) (acc ++ (getStarredRepos pages page 100).1)
          dsimp
          omega
        · dsimp
          omega
  have h1 := key (maxPages + 1) 1 []
  have e0 : getAllStarredRepos pages maxPages
      = getAllStarredReposGo pages maxPages 1 (maxPages + 1) [] := rfl
  rw [e0]
  omega

/-- C8: `getAllStarredRepos` requests pages of size 100 starting at page 1 and
stops after the first page shorter than 100, invoking the progress callback
after every page with the page number and cumulative count: for an upstream
returning pages of sizes [100, 100, 37] it returns exactly the 237 records in
fetched order after exactly 3 page fetches (with the 2 inter-page politeness
sleeps), and in general never fetches more than the `maxPages` cap. -/
theorem getAllStarredRepos_pagination (pages : Nat → List α)
    (h1 : (pages 1).length = 100) (h2 : (pages 2).length = 100)
    (h3 : (pages 3).length = 37) :
    getAllStarredRepos pages 100
      = ⟨pages 1 ++ pages 2 ++ pages 3, [(1, 100), (2, 200), (3, 237)], 3, 2⟩ ∧
    (∀ (qs : Nat → List α) (m : Nat),
      (getAllStarredRepos qs m).pagesFetched ≤ m) := by
  refine ⟨?_, fun qs m => getAllStarredRepos_cap qs m⟩
  have e0 : getAllStarredRepos pages 100
      = getAllStarredReposGo pages 100 1 (100 + 1) [] := rfl
  rw [e0, go_full_page pages 100 1 100 [] (by omega) h1]
  rw [show (100 : Nat) = 99 + 1 from rfl, go_full_page pages 100 2 99 _ (by omega) h2]
  rw [show (99 : Nat) = 98 + 1 from rfl, go_short_page pages 100 3 98 _ (by omega) (by omega)]
  simp [h1, h2, h3]

/-- Witness for `getAllStarredRepos_pagination` at a concrete upstream with
pages of sizes [100, 100, 37]. -/
theorem getAllStarredRepos_pagination_witness :
    getAllStarredRepos
        (fun p => if p = 1 then List.replicate 100 (0 : Nat)
                  else if p = 2 then List.replicate 100 1
                  else if p = 3 then List.replicate 37 2 else []) 100
      = ⟨List.replicate 100 0 ++ List.replicate 100 1 ++ List.replicate 37 2,
         [(1, 100), (2, 200), (3, 237)], 3, 2⟩ := by
  have h := (getAllStarredRepos_pagination
    (fun p => if p = 1 then List.replicate 100 (0 : Nat)
              else if p = 2 then List.replicate 100 1
              else if p = 3 then List.replicate 37 2 else [])
    (by simp) (by simp) (by simp)).1
  exact h.trans rfl

/-! ## Persistence gateway (src/lib/db.ts) and its schema (src/unnamed/part_002)

Tables are modelled as lists of rows.  `repository_updates` (schema lines
46–56) declares **no unique or exclusion constraint besides its `SERIAL`
primary key**, so the `ON CONFLICT DO NOTHING` of `saveRepositoryUpdate`
(db.ts lines 322–344) never has a conflict to skip — a fresh serial id never
collides — and the insert always appends a row. -/

/-- Activity type tag (`update_type`), the TS union
`'commit' | 'release' | 'issue' | 'pr' | 'readme'`. -/
inductive UpdateType where
  | commit | release | issue | pr | readme
deriving Repr, DecidableEq

/-- A `starred_repositories` row, restricted to the columns the embedded
operations read (`id`, the natural key `(user_id, github_repo_id)`, and the
full name used in error messages). -/
structure RepoRow where
  id : Nat
  user_id : Int
  github_repo_id : Int
  repo_full_name : String
deriving Repr, DecidableEq

/-- A `repository_updates` row. -/
structure UpdateRow where
  repo_id : Nat
  update_type : UpdateType
  title : String
  description : Option String
  url : String
  author : String
  detected_at : String
  is_read : Bool
deriving Repr, DecidableEq

/-- The `update` argument of `saveRepositoryUpdate` /
`saveRepositoryUpdateByGithubId`. -/
structure UpdateInput where
  type : UpdateType
  title : String
  description : Option String
  url : String
  author : String
  createdAt : String
deriving Repr, DecidableEq

/-- Model of `saveRepositoryUpdate(repositoryId, update)`: INSERT with
`ON CONFLICT DO NOTHING`.  With no unique constraint on the table beyond the
serial primary key, the conflict clause is inert, so the row is always
appended — including when a row with the same `(repo_id, url)` already
exists. -/
def saveRepositoryUpdate (table : List UpdateRow) (repositoryId : Nat)
    (u : UpdateInput) : List UpdateRow :=
  table ++ [⟨repositoryId, u.type, u.title, u.description, u.url, u.author,
    u.createdAt, false⟩]

/-- Model of `getRepositoryByGithubId(userId, githubRepoId)`: lookup of the internal
repo id by the natural key. -/
def getRepositoryByGithubId (repos : List RepoRow) (userId githubRepoId : Int) :
    Option Nat :=
  (repos.find? fun r => r.user_id == userId && r.github_repo_id == githubRepoId).map
    (fun r => r.id)

/-- Model of `saveRepositoryUpdateByGithubId(userId, repoGithubId, update)`: resolves
the repo row and inserts; returns `false` only when the repo row is missing,
and `true` whenever the insert statement ran — the boolean reports
"repository found", not "row actually inserted". -/
def saveRepositoryUpdateByGithubId (repos : List RepoRow)
    (table : List UpdateRow) (userId repoGithubId : Int) (u : UpdateInput) :
    List UpdateRow × Bool :=
  match getRepositoryByGithubId repos userId repoGithubId with
  | none => (table, false)
  | some rid => (saveRepositoryUpdate table rid u, true)

/-- Failing input for C1: one stored repository... -/
def reposC1 : List RepoRow := [⟨11, 1, 42, "octo/hello"⟩]

/-- ...and one activity record inserted twice for it. -/
def updC1 : UpdateInput :=
  ⟨.commit, "fix race", some "fix race in watcher",
    "https://example.test/commit/abc", "octo", "2024-01-01T00:00:00Z"⟩

/-- C1: the claim says inserting the same activity record (same repository,
same URL) twice leaves exactly one stored row and the second call returns
`inserted = false`.  On the code it fails both ways: the second call stores a
second, identical row (the schema has no natural-key unique constraint, so
`ON CONFLICT DO NOTHING` never fires) and returns `true` (the boolean means
"repository row found", not "inserted").  This theorem evaluates the code at
the failing input. -/
theorem saveRepositoryUpdateByGithubId_duplicate_inserted_twice :
    (saveRepositoryUpdateByGithubId reposC1
        (saveRepositoryUpdateByGithubId reposC1 [] 1 42 updC1).1 1 42 updC1).1
      = [⟨11, .commit, "fix race", some "fix race in watcher",
          "https://example.test/commit/abc", "octo", "2024-01-01T00:00:00Z", false⟩,
         ⟨11, .commit, "fix race", some "fix race in watcher",
          "https://example.test/commit/abc", "octo", "2024-01-01T00:00:00Z", false⟩] ∧
    (saveRepositoryUpdateByGithubId reposC1
        (saveRepositoryUpdateByGithubId reposC1 [] 1 42 updC1).1 1 42 updC1).2
      = true := ⟨rfl, rfl⟩

/-! ## Sync settings rows, the manual-sync cooldown (src/unnamed/part_004),
and `updateSyncSettings` (db.ts lines 387–412) -/

/-- A `user_sync_settings` row as read by `getSyncSettings` (`last_sync_at`
is an epoch-millisecond timestamp or NULL). -/
structure SyncSettingsRow where
  sync_enabled : Bool
  sync_interval_minutes : Int
  last_sync_at : Option Int
deriving Repr, DecidableEq

/-- The constant `MIN_SYNC_INTERVAL_MS = 5 * 60 * 1000` from the manual-sync route. -/
def MIN_SYNC_INTERVAL_MS : Int := 5 * 60 * 1000

/-- JavaScript `Math.ceil(x / 1000)` on integer milliseconds. -/
def ceilDiv1000 (x : Int) : Int := -((-x).fdiv 1000)

/-- Outcome of the manual-sync rate-limit check: `reject waitTime lastSyncAt`
is the HTTP 429 response (with `waitTime` in seconds and the stored
`last_sync_at`), issued without invoking the orchestrator; `proceed` means the
request goes on to invoke `syncUserRepositories`. -/
inductive SyncDecision where
  | reject (waitTime : Int) (lastSyncAt : Int)
  | proceed
deriving Repr, DecidableEq

/-- The cooldown check of `POST /api/sync` (src/unnamed/part_004 lines 38–56):
only runs when settings exist and `last_sync_at` is set;
rejects with 429 when the elapsed time is under the 5-minute minimum. -/
def postSyncCooldown (settings : Option SyncSettingsRow) (now : Int) :
    SyncDecision :=
  match settings with
  | some s =>
    match s.last_sync_at with
    | some t =>
      let timeSinceLastSync := now - t
      if timeSinceLastSync < MIN_SYNC_INTERVAL_MS then
        .reject (ceilDiv1000 (MIN_SYNC_INTERVAL_MS - timeSinceLastSync)) t
      else .proceed
    | none => .proceed
  | none => .proceed

/-- C9: with the 5-minute minimum interval, a manual sync 2 minutes after the
last sync is rejected with HTTP 429 carrying `waitTime = 180` seconds and the
stored `last_sync_at`, without invoking the orchestrator; 6 minutes after the
last sync (or with no recorded sync) the request proceeds to the
orchestrator. -/
theorem manual_sync_cooldown (s : SyncSettingsRow) (now t : Int) :
    (s.last_sync_at = some t → now - t = 120000 →
      postSyncCooldown (some s) now = .reject 180 t) ∧
    (s.last_sync_at = some t → now - t = 360000 →
      postSyncCooldown (some s) now = .proceed) ∧
    (s.last_sync_at = none → postSyncCooldown (some s) now = .proceed) ∧
    postSyncCooldown none now = .proceed := by
  refine ⟨?_, ?_, ?_, rfl⟩
  · intro hl he
    simp only [postSyncCooldown, hl, he, MIN_SYNC_INTERVAL_MS]
    norm_num
    decide
  · intro hl he
    simp only [postSyncCooldown, hl, he, MIN_SYNC_INTERVAL_MS]
    norm_num
  · intro hl
    simp [postSyncCooldown, hl]

/-- Witness for `manual_sync_cooldown` at concrete timestamps. -/
theorem manual_sync_cooldown_witness :
    postSyncCooldown (some ⟨true, 120, some 880000⟩) 1000000 = .reject 180 880000 ∧
    postSyncCooldown (some ⟨true, 120, some 640000⟩) 1000000 = .proceed :=
  ⟨(manual_sync_cooldown ⟨true, 120, some 880000⟩ 1000000 880000).1 rfl (by norm_num),
   (manual_sync_cooldown ⟨true, 120, some 640000⟩ 1000000 640000).2.1 rfl (by norm_num)⟩

/-- Input of `updateSyncSettings` (`settings.syncEnabled?`,
`settings.syncIntervalMinutes?`). -/
structure SyncSettingsInput where
  syncEnabled : Option Bool
  syncIntervalMinutes : Option Int
deriving Repr, DecidableEq

/-- Model of `updateSyncSettings(userId, settings)` (db.ts lines 387–412):
`INSERT ... VALUES (userId, syncEnabled ?? true, syncIntervalMinutes ?? 120)
ON CONFLICT (user_id) DO UPDATE SET sync_enabled = COALESCE(EXCLUDED..., ...),
sync_interval_minutes = COALESCE(EXCLUDED..., ...), last_sync_at = NOW(),
updated_at = NOW()`.

The inserted values are never NULL (the `??` defaults apply first), so the
COALESCEs always pick the EXCLUDED value.  The insert path leaves
`last_sync_at` at its NULL column default; the update path sets it to
`NOW()`. -/
def updateSyncSettings (existing : Option SyncSettingsRow)
    (input : SyncSettingsInput) (now : Int) : SyncSettingsRow :=
  let exEnabled := input.syncEnabled.getD true
  let exInterval := input.syncIntervalMinutes.getD 120
  match existing with
  | none => ⟨exEnabled, exInterval, none⟩
  | some _ => ⟨exEnabled, exInterval, some now⟩

/-- The user-selection predicate as the spec words it ("users where
`sync_enabled` and (`last_sync_at` is null or elapsed ≥ interval)").  Named
`...Spec` because it follows the spec's sentence, for comparison with
`getUsersToSync`, which embeds the actual SQL. -/
def dueForSyncSpec (s : SyncSettingsRow) (now : Int) : Bool :=
  s.sync_enabled &&
    (match s.last_sync_at with
     | none => true
     | some t => decide (s.sync_interval_minutes * 60000 ≤ now - t))

/-- C10: every `updateSyncSettings` call that hits an existing settings row
sets that row's `last_sync_at` to the current time, even though no sync ran.
Consequently the manual-trigger cooldown restarts (an immediate manual sync is
rejected with the full 300-second wait) and the user stops being due for
scheduled selection (for any positive interval, the spec's selection predicate
is false right after the write). -/
theorem updateSyncSettings_resets_last_sync (row : SyncSettingsRow)
    (input : SyncSettingsInput) (now : Int) :
    (updateSyncSettings (some row) input now).last_sync_at = some now ∧
    postSyncCooldown (some (updateSyncSettings (some row) input now)) now
      = .reject 300 now ∧
    (0 < (updateSyncSettings (some row) input now).sync_interval_minutes →
      dueForSyncSpec (updateSyncSettings (some row) input now) now = false) := by
  refine ⟨rfl, ?_, ?_⟩
  · simp only [updateSyncSettings, postSyncCooldown, MIN_SYNC_INTERVAL_MS]
    norm_num
    decide
  · intro hpos
    simp only [updateSyncSettings] at hpos ⊢
    simp only [dueForSyncSpec]
    have hne : ¬ ((input.syncIntervalMinutes.getD 120) * 60000 ≤ now - now) := by
      omega
    simp only [Bool.and_eq_false_imp, decide_eq_false_iff_not]
    intro _
    exact hne

/-- Witness for `updateSyncSettings_resets_last_sync`: updating only the
interval of an existing row still stamps `last_sync_at`, restarts the 5-minute
cooldown and makes the user not due. -/
theorem updateSyncSettings_resets_last_sync_witness :
    (updateSyncSettings (some ⟨true, 120, none⟩) ⟨none, some 60⟩ 5000).last_sync_at
      = some 5000 ∧
    postSyncCooldown
        (some (updateSyncSettings (some ⟨true, 120, none⟩) ⟨none, some 60⟩ 5000)) 5000
      = .reject 300 5000 ∧
    dueForSyncSpec (updateSyncSettings (some ⟨true, 120, none⟩) ⟨none, some 60⟩ 5000) 5000
      = false := by
  have h := updateSyncSettings_resets_last_sync ⟨true, 120, none⟩ ⟨none, some 60⟩ 5000
  exact ⟨h.1, h.2.1, h.2.2 (by decide)⟩

/-! ## `getUsersToSync` (db.ts lines 611–642) and its WHERE clause

```sql
WHERE s.sync_enabled = true
  AND (
    s.last_sync_at IS NULL
    OR s.last_sync_at <= NOW() - (s.sync_interval_minutes || '1') * INTERVAL '1 minute'
  )
```

`||` in PostgreSQL is string concatenation, not arithmetic: with an integer
left operand and the unknown literal `'1'`, operator resolution picks
`anynonarray || text`, so `(s.sync_interval_minutes || '1')` has type `text`
(the minutes rendered as digits with a `1` appended).  The product
`text * INTERVAL '1 minute'` then has no matching operator and no implicit
`text`-to-numeric cast exists, so the statement fails when the query is
planned — before any row is considered — and the surrounding `catch` rethrows
a `DatabaseError('Failed to get users to sync')`.

This is embedded as a small typed expression language for exactly the
constructs of this WHERE clause, with Postgres's typing rules for them. -/

/-- SQL types occurring in the clause. -/
inductive SqlTy where
  | int | text | interval | timestamptz | bool
deriving Repr, DecidableEq

/-- Rendering of a type name in an operator-resolution error. -/
def tyName : SqlTy → String
  | .int => "integer"
  | .text => "text"
  | .interval => "interval"
  | .timestamptz => "timestamp with time zone"
  | .bool => "boolean"

/-- The SQL expressions occurring in the WHERE clause of `getUsersToSync`,
over one joined `users ⋈ user_sync_settings` row. -/
inductive SqlExpr where
  | colSyncEnabled
  | colLastSyncAt
  | colIntervalMinutes
  | litBool (b : Bool)
  | litText (s : String)
  | litInterval (minutes : Int)
  | nowFn
  | concat (a b : SqlExpr)
  | mul (a b : SqlExpr)
  | sub (a b : SqlExpr)
  | le (a b : SqlExpr)
  | isNull (a : SqlExpr)
  | eqE (a b : SqlExpr)
  | andE (a b : SqlExpr)
  | orE (a b : SqlExpr)
deriving Repr, DecidableEq

/-- Postgres operator/type resolution for the embedded fragment.  `||`
concatenates whenever at least one operand is `text` (`text || text`,
`anynonarray || text`, `text || anynonarray`; an unknown literal next to a
non-text operand resolves to `text`).  `*` exists for numeric × numeric and
numeric × interval, but not for `text * interval`. -/
def typeOf : SqlExpr → Except String SqlTy
  | .colSyncEnabled => .ok .bool
  | .colLastSyncAt => .ok .timestamptz
  | .colIntervalMinutes => .ok .int
  | .litBool _ => .ok .bool
  | .litText _ => .ok .text
  | .litInterval _ => .ok .interval
  | .nowFn => .ok .timestamptz
  | .concat a b => do
      let ta ← typeOf a
      let tb ← typeOf b
      if ta = .text ∨ tb = .text then pure .text
      else throw ("operator does not exist: " ++ tyName ta ++ " || " ++ tyName tb)
  | .mul a b => do
      let ta ← typeOf a
      let tb ← typeOf b
      match ta, tb with
      | .int, .int => pure .int
      | .int, .interval => pure .interval
      | .interval, .int => pure .interval
      | ta', tb' => throw ("operator does not exist: " ++ tyName ta' ++ " * " ++ tyName tb')
  | .sub a b => do
      let ta ← typeOf a
      let tb ← typeOf b
      match ta, tb with
      | .timestamptz, .interval => pure .timestamptz
      | .int, .int => pure .int
      | ta', tb' => throw ("operator does not exist: " ++ tyName ta' ++ " - " ++ tyName tb')
  | .le a b => do
      let ta ← typeOf a
      let tb ← typeOf b
      if ta = tb then pure .bool
      else throw ("operator does not exist: " ++ tyName ta ++ " <= " ++ tyName tb)
  | .isNull a => do
      let _ ← typeOf a
      pure .bool
  | .eqE a b => do
      let ta ← typeOf a
      let tb ← typeOf b
      if ta = tb then pure .bool
      else throw ("operator does not exist: " ++ tyName ta ++ " = " ++ tyName tb)
  | .andE a b => do
      let ta ← typeOf a
      let tb ← typeOf b
      match ta, tb with
      | .bool, .bool => pure .bool
      | _, _ => throw "argument of AND must be type boolean"
  | .orE a b => do
      let ta ← typeOf a
      let tb ← typeOf b
      match ta, tb with
      | .bool, .bool => pure .bool
      | _, _ => throw "argument of OR must be type boolean"

/-- SQL runtime values (intervals and timestamps in milliseconds). -/
inductive SqlVal where
  | vInt (i : Int)
  | vText (s : String)
  | vInterval (ms : Int)
  | vTimestamp (t : Int)
  | vBool (b : Bool)
  | vNull
deriving Repr, DecidableEq

/-- Row evaluation for well-typed expressions of the fragment (only reached
when `typeOf` succeeds; NULL propagates through operators, `IS NULL` and the
three-valued AND/OR treat it as SQL does). -/
def evalExpr (s : SyncSettingsRow) (now : Int) : SqlExpr → Except String SqlVal
  | .colSyncEnabled => .ok (.vBool s.sync_enabled)
  | .colLastSyncAt =>
      .ok (match s.last_sync_at with | some t => .vTimestamp t | none => .vNull)
  | .colIntervalMinutes => .ok (.vInt s.sync_interval_minutes)
  | .litBool b => .ok (.vBool b)
  | .litText t => .ok (.vText t)
  | .litInterval m => .ok (.vInterval (m * 60000))
  | .nowFn => .ok (.vTimestamp now)
  | .concat a b => do
      match (← evalExpr s now a), (← evalExpr s now b) with
      | .vNull, _ => pure .vNull
      | _, .vNull => pure .vNull
      | .vText x, .vText y => pure (.vText (x ++ y))
      | .vInt i, .vText y => pure (.vText (toString i ++ y))
      | .vText x, .vInt i => pure (.vText (x ++ toString i))
      | _, _ => throw "operator does not exist"
  | .mul a b => do
      match (← evalExpr s now a), (← evalExpr s now b) with
      | .vNull, _ => pure .vNull
      | _, .vNull => pure .vNull
      | .vInt x, .vInt y => pure (.vInt (x * y))
      | .vInt x, .vInterval m => pure (.vInterval (x * m))
      | .vInterval m, .vInt x => pure (.vInterval (x * m))
      | _, _ => throw "operator does not exist: text * interval"
  | .sub a b => do
      match (← evalExpr s now a), (← evalExpr s now b) with
      | .vNull, _ => pure .vNull
      | _, .vNull => pure .vNull
      | .vTimestamp t, .vInterval m => pure (.vTimestamp (t - m))
      | .vInt x, .vInt y => pure (.vInt (x - y))
      | _, _ => throw "operator does not exist"
  | .le a b => do
      match (← evalExpr s now a), (← evalExpr s now b) with
      | .vNull, _ => pure .vNull
      | _, .vNull => pure .vNull
      | .vTimestamp x, .vTimestamp y => pure (.vBool (decide (x ≤ y)))
      | .vInt x, .vInt y => pure (.vBool (decide (x ≤ y)))
      | _, _ => throw "operator does not exist"
  | .isNull a => do
      match (← evalExpr s now a) with
      | .vNull => pure (.vBool true)
      | _ => pure (.vBool false)
  | .eqE a b => do
      match (← evalExpr s now a), (← evalExpr s now b) with
      | .vNull, _ => pure .vNull
      | _, .vNull => pure .vNull
      | .vBool x, .vBool y => pure (.vBool (x == y))
      | .vInt x, .vInt y => pure (.vBool (x == y))
      | _, _ => throw "operator does not exist"
  | .andE a b => do
      match (← evalExpr s now a), (← evalExpr s now b) with
      | .vBool false, _ => pure (.vBool false)
      | _, .vBool false => pure (.vBool false)
      | .vBool x, .vBool y => pure (.vBool (x && y))
      | .vNull, _ => pure .vNull
      | _, .vNull => pure .vNull
      | _, _ => throw "argument of AND must be type boolean"
  | .orE a b => do
      match (← evalExpr s now a), (← evalExpr s now b) with
      | .vBool true, _ => pure (.vBool true)
      | _, .vBool true => pure (.vBool true)
      | .vBool x, .vBool y => pure (.vBool (x || y))
      | .vNull, _ => pure .vNull
      | _, .vNull => pure .vNull
      | _, _ => throw "argument of OR must be type boolean"

/-- The WHERE clause of `getUsersToSync`, exactly as written in db.ts:
`sync_enabled = true AND (last_sync_at IS NULL OR last_sync_at <=
NOW() - (sync_interval_minutes || '1') * INTERVAL '1 minute')`. -/
def usersToSyncCond : SqlExpr :=
  .andE (.eqE .colSyncEnabled (.litBool true))
    (.orE (.isNull .colLastSyncAt)
      (.le .colLastSyncAt
        (.sub .nowFn
          (.mul (.concat .colIntervalMinutes (.litText "1")) (.litInterval 1)))))

/-- A row of the `users ⋈ user_sync_settings` join selected by
`getUsersToSync`. -/
structure UserSyncRow where
  id : Int
  access_token : String
  settings : SyncSettingsRow
deriving Repr, DecidableEq

/-- Model of `getUsersToSync()`: runs the SELECT with `usersToSyncCond`.  Planning the
query type-checks the clause; a planning failure is caught and rethrown as
`DatabaseError('Failed to get users to sync')`.  Only a well-typed clause is
evaluated against the rows. -/
def getUsersToSync (rows : List UserSyncRow) (now : Int) :
    Except String (List UserSyncRow) :=
  match typeOf usersToSyncCond with
  | .error _ => .error "Failed to get users to sync"
  | .ok _ =>
    .ok (rows.filter fun r =>
      match evalExpr r.settings now usersToSyncCond with
      | .ok (.vBool true) => true
      | _ => false)

/-- User A of C2: `sync_enabled = false`. -/
def userA : UserSyncRow := ⟨1, "ta", ⟨false, 120, some 88000000⟩⟩

/-- User B of C2: never synced (`last_sync_at = NULL`). -/
def userB : UserSyncRow := ⟨2, "tb", ⟨true, 120, none⟩⟩

/-- User C of C2: synced 200 minutes ago with a 120-minute interval. -/
def userC : UserSyncRow := ⟨3, "tc", ⟨true, 120, some 88000000⟩⟩

/-- User D of C2: synced 10 minutes ago with a 120-minute interval. -/
def userD : UserSyncRow := ⟨4, "td", ⟨true, 120, some 99400000⟩⟩

/-- C2: the claim says `getUsersToSync` returns exactly the enabled users who
never synced or whose elapsed time is at least their interval — {B, C} for the
A/B/C/D scenario (`now = 100000000`).  On the code it cannot: the WHERE clause
multiplies the `text` value `(sync_interval_minutes || '1')` by an interval,
which has no operator, so the query fails at planning and the function throws
`DatabaseError('Failed to get users to sync')` for every database state —
no user is ever selected.  The spec's own wording of the predicate, evaluated
on the same rows, selects exactly {B, C}. -/
theorem getUsersToSync_where_clause_type_error :
    typeOf usersToSyncCond = .error "operator does not exist: text * interval" ∧
    getUsersToSync [userA, userB, userC, userD] 100000000
      = .error "Failed to get users to sync" ∧
    (([userA, userB, userC, userD].filter
        fun r => dueForSyncSpec r.settings 100000000).map fun r => r.id)
      = [2, 3] := ⟨rfl, rfl, rfl⟩

/-! ## The sync orchestrator `syncUserRepositories`
(src/lib/github.ts sync module, lines 634–849)

External calls are supplied by a `SyncEnv` oracle.  The repository list fetch
and the per-repo persistence / activity fetches are wrapped in `withRetry` in
the source; the oracle fields give the **post-retry** outcome of each such
wrapped call (`Except String` carries the stringified error that the
surrounding `catch` interpolates into its message).  Oracle fields for calls
inside loops are indexed by loop iteration; `saveActivity i j` is the outcome
of the `j`-th `saveRepositoryUpdateByGithubId` call (in commits → issues → PRs
order) of updates-loop iteration `i`.  Database reads that the claims never
make fail (`getUserWithToken`, `getSyncSettings`) are modelled by their
returned value.  `duration` is wall-clock time and is fixed at 0 in the
model. -/

/-- A fetched GitHub repository, restricted to the fields the sync module
reads. -/
structure Repo where
  id : Int
  name : String
  full_name : String
  description : Option String
  html_url : String
  language : Option String
  stargazers_count : Int
  topics : List String
  owner_avatar_url : Option String
deriving Repr, DecidableEq

/-- A fetched commit, restricted to the fields the sync module reads. -/
structure Commit where
  message : String
  html_url : String
  author_name : String
  author_date : String
deriving Repr, DecidableEq

/-- A fetched issue, restricted to the fields the sync module reads. -/
structure Issue where
  title : String
  body : Option String
  html_url : String
  user_login : String
  created_at : String
deriving Repr, DecidableEq

/-- A fetched pull request, restricted to the fields the sync module reads. -/
structure PullReq where
  title : String
  body : Option String
  html_url : String
  user_login : String
  created_at : String
deriving Repr, DecidableEq

/-- The activity record built from a commit (title is the first message
line). -/
def commitToUpdate (c : Commit) : UpdateInput :=
  ⟨.commit, (c.message.splitOn "\n").headD "", some c.message, c.html_url,
    c.author_name, c.author_date⟩

/-- The activity record built from an issue. -/
def issueToUpdate (i : Issue) : UpdateInput :=
  ⟨.issue, i.title, i.body, i.html_url, i.user_login, i.created_at⟩

/-- The activity record built from a pull request. -/
def prToUpdate (p : PullReq) : UpdateInput :=
  ⟨.pr, p.title, p.body, p.html_url, p.user_login, p.created_at⟩

/-- The `users` row resolved by `getUserWithToken`, restricted to the fields
the sync module reads. -/
structure SyncUser where
  id : Int
  access_token : String
deriving Repr, DecidableEq

/-- Oracle for one `syncUserRepositories` run. -/
structure SyncEnv where
  /-- `getUserWithToken(userId)`. -/
  user : Option SyncUser
  /-- `getSyncSettings(userId)`. -/
  settings : Option SyncSettingsRow
  /-- post-retry outcome of `withRetry(() => githubClient.getAllStarredRepos(...))`. -/
  fetchRepos : Except String (List Repo)
  /-- post-retry outcome of `withRetry(() => saveRepository(...))` at saving-loop index `i`. -/
  saveRepo : Nat → Except String Nat
  /-- post-retry outcome of `withRetry(() => getRecentCommits(owner, name, 5))` at updates-loop index `i`. -/
  commits : Nat → Except String (List Commit)
  /-- post-retry outcome of `withRetry(() => getRecentIssues(owner, name, 5, 'open'))`. -/
  issues : Nat → Except String (List Issue)
  /-- post-retry outcome of `withRetry(() => getRecentPRs(owner, name, 5, 'open'))`. -/
  prs : Nat → Except String (List PullReq)
  /-- outcome of the `j`-th `saveRepositoryUpdateByGithubId` call of updates-loop
  iteration `i` (`true`/`false` is its returned boolean; `error` a thrown
  `DatabaseError`). -/
  saveActivity : Nat → Nat → Except String Bool
  /-- outcome of `updateLastSyncTime(userId)`. -/
  updateLastSync : Except String Unit

/-- The `SyncResult` record of the sync module. -/
structure SyncResult where
  success : Bool
  userId : Int
  reposSynced : Nat
  updatesDetected : Nat
  errors : List String
  duration : Int
deriving Repr, DecidableEq

/-- Counters of the external calls a run performed, for stating
which stages were reached and how many persistence attempts were made. -/
structure SyncCalls where
  fetchCalls : Nat
  saveRepoCalls : Nat
  activityFetchCalls : Nat
  activitySaveCalls : Nat
  lastSyncCalls : Nat
deriving Repr, DecidableEq

/-- No external call performed. -/
def noCalls : SyncCalls := ⟨0, 0, 0, 0, 0⟩

/-- The test `syncSettings && !syncSettings.sync_enabled`: sync is explicitly
disabled. -/
def syncDisabled : Option SyncSettingsRow → Bool
  | some s => !s.sync_enabled
  | none => false

/-- Result of the saving loop (step 4): repos persisted, error messages
appended, `saveRepository` attempts made. -/
structure SavingOut where
  reposSynced : Nat
  errors : List String
  calls : Nat
deriving Repr, DecidableEq

/-- The `for` loop over `allRepos` (source lines 697–730): each iteration
attempts `withRetry(saveRepository(...))`; success increments `reposSynced`,
failure appends `Failed to save repo <full_name>: <error>` and continues. -/
def savingLoop (env : SyncEnv) : List Repo → Nat → SavingOut
  | [], _ => ⟨0, [], 0⟩
  | repo :: rest, i =>
    let t := savingLoop env rest (i + 1)
    match env.saveRepo i with
    | .ok _ => ⟨t.reposSynced + 1, t.errors, t.calls + 1⟩
    | .error e =>
      ⟨t.reposSynced,
       ("Failed to save repo " ++ repo.full_name ++ ": " ++ e) :: t.errors,
       t.calls + 1⟩

/-- Result of saving one category of activity items: new-row detections,
the first thrown error if any (which aborts the repo's processing), and calls
made. -/
structure ItemsOut where
  detected : Nat
  err : Option String
  calls : Nat
deriving Repr, DecidableEq

/-- The `for (const item of items)` loops: each item is saved via
`saveRepositoryUpdateByGithubId`; a returned `true` increments the detected
counter; a thrown error escapes to the per-repo catch (increments made before
it are kept, since the counter is an outer mutable). -/
def saveItems (save : Nat → Except String Bool) : Nat → List UpdateInput → ItemsOut
  | _, [] => ⟨0, none, 0⟩
  | j, _ :: rest =>
    match save j with
    | .error e => ⟨0, some e, 1⟩
    | .ok b =>
      let t := saveItems save (j + 1) rest
      ⟨(if b then 1 else 0) + t.detected, t.err, t.calls + 1⟩

/-- Result of one updates-loop iteration: detections, the caught per-repo
error if any, activity fetches (1–3) and activity saves made. -/
structure StepOut where
  detected : Nat
  err : Option String
  fetches : Nat
  saves : Nat
deriving Repr, DecidableEq

/-- One iteration of the updates loop (source lines 743–815): fetch commits,
save each; fetch issues, save each; fetch PRs, save each.  The first thrown
error ends the iteration (to be caught and recorded by the loop). -/
def updatesStep (env : SyncEnv) (i : Nat) : StepOut :=
  match env.commits i with
  | .error e => ⟨0, some e, 1, 0⟩
  | .ok cs =>
    let u1 := saveItems (env.saveActivity i) 0 (cs.map commitToUpdate)
    match u1.err with
    | some e => ⟨u1.detected, some e, 1, u1.calls⟩
    | none =>
      match env.issues i with
      | .error e => ⟨u1.detected, some e, 2, u1.calls⟩
      | .ok iss =>
        let u2 := saveItems (env.saveActivity i) cs.length (iss.map issueToUpdate)
        match u2.err with
        | some e => ⟨u1.detected + u2.detected, some e, 2, u1.calls + u2.calls⟩
        | none =>
          match env.prs i with
          | .error e => ⟨u1.detected + u2.detected, some e, 3, u1.calls + u2.calls⟩
          | .ok ps =>
            let u3 := saveItems (env.saveActivity i) (cs.length + iss.length)
              (ps.map prToUpdate)
            ⟨u1.detected + u2.detected + u3.detected, u3.err, 3,
             u1.calls + u2.calls + u3.calls⟩

/-- Aggregate of the updates loop. -/
structure UpdatesOut where
  detected : Nat
  errors : List String
  fetches : Nat
  saves : Nat
deriving Repr, DecidableEq

/-- The updates loop over `reposToUpdate`: a per-repo error is caught,
recorded as `Failed to fetch updates for <full_name>: <error>`, and the loop
continues with the next repo. -/
def updatesLoop (env : SyncEnv) : List Repo → Nat → UpdatesOut
  | [], _ => ⟨0, [], 0, 0⟩
  | repo :: rest, i =>
    let s := updatesStep env i
    let t := updatesLoop env rest (i + 1)
    ⟨s.detected + t.detected,
     (match s.err with
      | some e => ["Failed to fetch updates for " ++ repo.full_name ++ ": " ++ e]
      | none => []) ++ t.errors,
     s.fetches + t.fetches, s.saves + t.saves⟩

/-- Model of `syncUserRepositories(userId)`: resolve user/credential, check settings,
fetch all starred repos, save them, fetch+save activity for the first 20,
stamp the last-sync time.  Thrown errors outside the two per-repo loops land
in the outer catch, which returns `success = false` with
`Sync failed for user <id>: <error>` appended. -/
def syncUserRepositories (env : SyncEnv) (userId : Int) :
    SyncResult × SyncCalls :=
  match env.user with
  | none =>
    (⟨false, userId, 0, 0,
      ["Sync failed for user " ++ toString userId ++ ": Error: User "
        ++ toString userId ++ " not found"], 0⟩, noCalls)
  | some u =>
    if u.access_token = "" then
      (⟨false, userId, 0, 0,
        ["Sync failed for user " ++ toString userId ++ ": Error: User "
          ++ toString userId ++ " has no access token"], 0⟩, noCalls)
    else if syncDisabled env.settings then
      (⟨false, userId, 0, 0, ["Sync is disabled for this user"], 0⟩, noCalls)
    else
      match env.fetchRepos with
      | .error e =>
        (⟨false, userId, 0, 0,
          ["Sync failed for user " ++ toString userId ++ ": " ++ e], 0⟩,
         ⟨1, 0, 0, 0, 0⟩)
      | .ok allRepos =>
        let sav := savingLoop env allRepos 0
        let upd := updatesLoop env (allRepos.take 20) 0
        let calls : SyncCalls := ⟨1, sav.calls, upd.fetches, upd.saves, 1⟩
        match env.updateLastSync with
        | .error e =>
          (⟨false, userId, sav.reposSynced, upd.detected,
            sav.errors ++ upd.errors
              ++ ["Sync failed for user " ++ toString userId ++ ": " ++ e], 0⟩,
           calls)
        | .ok _ =>
          (⟨true, userId, sav.reposSynced, upd.detected,
            sav.errors ++ upd.errors, 0⟩, calls)

/-- Concrete oracle in which the user's stored sync settings have
`sync_enabled = false`. -/
def envC4 : SyncEnv :=
  { user := some ⟨9, "tok"⟩, settings := some ⟨false, 120, none⟩,
    fetchRepos := .ok [], saveRepo := fun _ => .ok 0,
    commits := fun _ => .ok [], issues := fun _ => .ok [],
    prs := fun _ => .ok [], saveActivity := fun _ _ => .ok false,
    updateLastSync := .ok () }

/-- C4 counterexample: the claim calls the "disabled" result a normal
(non-error) outcome, not a failed run.  In the code the disabled branch
returns `success: false` with the message in the `errors` list — the same
failure shape as a failed run — so the result is not a non-error outcome.
(The "returns immediately" half of the claim does hold: no external call is
made.) -/
theorem syncUserRepositories_disabled_not_success :
    (syncUserRepositories envC4 9).1.success = false ∧
    (syncUserRepositories envC4 9).1.errors = ["Sync is disabled for this user"] ∧
    (syncUserRepositories envC4 9).2 = noCalls := ⟨rfl, rfl, rfl⟩

/-- C4 (amended): for every user resolved with a credential whose stored sync
settings have `sync_enabled = false`, `syncUserRepositories` returns
immediately — no upstream fetch, repository/activity persistence or
last-sync-time call is made — with a result marked `success = false` whose
error list is exactly `["Sync is disabled for this user"]` (the disabled case
is reported in the failure shape, not as a success). -/
theorem syncUserRepositories_disabled_result (env : SyncEnv) (userId : Int)
    (u : SyncUser) (s : SyncSettingsRow) (hu : env.user = some u)
    (ht : ¬ u.access_token = "") (hs : env.settings = some s)
    (hd : s.sync_enabled = false) :
    syncUserRepositories env userId
      = (⟨false, userId, 0, 0, ["Sync is disabled for this user"], 0⟩, noCalls) := by
  have hdis : syncDisabled env.settings = true := by
    rw [hs]; simp [syncDisabled, hd]
  simp [syncUserRepositories, hu, ht, hdis]

/-- Witness for `syncUserRepositories_disabled_result`. -/
theorem syncUserRepositories_disabled_result_witness :
    syncUserRepositories envC4 9
      = (⟨false, 9, 0, 0, ["Sync is disabled for this user"], 0⟩, noCalls) :=
  syncUserRepositories_disabled_result envC4 9 ⟨9, "tok"⟩ ⟨false, 120, none⟩
    rfl (by decide) rfl rfl

/-- With a save oracle that fails only at index `k`, every stretch of
iterations avoiding `k` saves all its repos with no error. -/
theorem savingLoop_all_ok (env : SyncEnv) (k : Nat) (e : String)
    (hsave : env.saveRepo = fun j => if j = k then .error e else .ok 0) :
    ∀ (l : List Repo) (i : Nat), (∀ j, i ≤ j → j < i + l.length → j ≠ k) →
      savingLoop env l i = ⟨l.length, [], l.length⟩ := by
  intro l
  induction l with
  | nil => intro i h; simp [savingLoop]
  | cons r rest ih =>
    intro i h
    have hik : i ≠ k := h i le_rfl (by simp)
    rw [savingLoop, ih (i + 1) (fun j hj1 hj2 => h j (by omega) (by simp; omega))]
    rw [hsave]
    simp [hik]

/-- The saving loop distributes over list concatenation (the tail runs at the
shifted index). -/
theorem savingLoop_append (env : SyncEnv) :
    ∀ (a b : List Repo) (i : Nat),
      savingLoop env (a ++ b) i
        = ⟨(savingLoop env a i).reposSynced + (savingLoop env b (i + a.length)).reposSynced,
           (savingLoop env a i).errors ++ (savingLoop env b (i + a.length)).errors,
           (savingLoop env a i).calls + (savingLoop env b (i + a.length)).calls⟩ := by
  intro a
  induction a with
  | nil => intro b i; simp [savingLoop]
  | cons r rest ih =>
    intro b i
    rw [List.cons_append, savingLoop, savingLoop, ih]
    have harith : i + (rest.length + 1) = (i + 1) + rest.length := by omega
    cases h : env.saveRepo i with
    | ok v =>
      simp only [SavingOut.mk.injEq, List.length_cons, harith, List.cons_append,
        and_true, true_and]
      omega
    | error e =>
      simp only [SavingOut.mk.injEq, List.length_cons, harith, List.cons_append,
        and_true, true_and]
      omega

/-- A failing head at exactly index `k` records one error and continues
through the rest of the list. -/
theorem savingLoop_fail_head (env : SyncEnv) (k : Nat) (e : String)
    (hsave : env.saveRepo = fun j => if j = k then .error e else .ok 0)
    (r : Repo) (rest : List Repo)
    (hrest : ∀ j, k + 1 ≤ j → j < k + 1 + rest.length → j ≠ k) :
    savingLoop env (r :: rest) k
      = ⟨rest.length,
         ["Failed to save repo " ++ r.full_name ++ ": " ++ e], rest.length + 1⟩ := by
  rw [savingLoop, savingLoop_all_ok env k e hsave rest (k + 1) hrest, hsave]
  simp

/-- An updates-loop iteration whose three fetches all succeed with empty item
lists detects nothing and raises nothing. -/
theorem updatesStep_trivial (env : SyncEnv)
    (hc : env.commits = fun _ => .ok []) (hi : env.issues = fun _ => .ok [])
    (hp : env.prs = fun _ => .ok []) (i : Nat) :
    updatesStep env i = ⟨0, none, 3, 0⟩ := by
  simp [updatesStep, hc, hi, hp, saveItems]

/-- The whole updates loop under all-empty successful fetches: no detections,
no errors, three fetches per repo. -/
theorem updatesLoop_trivial (env : SyncEnv)
    (hc : env.commits = fun _ => .ok []) (hi : env.issues = fun _ => .ok [])
    (hp : env.prs = fun _ => .ok []) :
    ∀ (l : List Repo) (i : Nat), updatesLoop env l i = ⟨0, [], 3 * l.length, 0⟩ := by
  intro l
  induction l with
  | nil => intro i; simp [updatesLoop]
  | cons r rest ih =>
    intro i
    rw [updatesLoop, ih (i + 1), updatesStep_trivial env hc hi hp i]
    simp [UpdatesOut.mk.injEq, Nat.mul_succ, Nat.add_comm]

/-- C5: when persisting repository `k` fails (post-retry) and everything else
succeeds, the run still attempts to persist all `N` fetched repositories (the
failure does not escape the saving loop), reports `reposSynced = N - 1`,
records exactly one error entry naming repository `k`, proceeds through the
updates loop, and finishes as a successful run. -/
theorem syncUserRepositories_failure_isolation (env : SyncEnv) (userId : Int)
    (u : SyncUser) (repos : List Repo) (k : Nat) (e : String)
    (hu : env.user = some u) (ht : ¬ u.access_token = "")
    (hnd : syncDisabled env.settings = false)
    (hfetch : env.fetchRepos = .ok repos) (hk : k < repos.length)
    (hsave : env.saveRepo = fun j => if j = k then .error e else .ok 0)
    (hc : env.commits = fun _ => .ok []) (hi : env.issues = fun _ => .ok [])
    (hp : env.prs = fun _ => .ok []) (hl : env.updateLastSync = .ok ()) :
    (syncUserRepositories env userId).1.success = true ∧
    (syncUserRepositories env userId).1.reposSynced = repos.length - 1 ∧
    (syncUserRepositories env userId).1.errors
      = ["Failed to save repo " ++ (repos.get ⟨k, hk⟩).full_name ++ ": " ++ e] ∧
    (syncUserRepositories env userId).2.saveRepoCalls = repos.length := by
  have htk : (repos.take k).length = k := by
    rw [List.length_take]; omega
  have hdk : (repos.drop (k + 1)).length = repos.length - (k + 1) :=
    List.length_drop _ _
  have hsavL : savingLoop env repos 0
      = ⟨repos.length - 1,
         ["Failed to save repo " ++ (repos.get ⟨k, hk⟩).full_name ++ ": " ++ e],
         repos.length⟩ := by
    conv_lhs =>
      rw [← List.take_append_drop k repos, List.drop_eq_getElem_cons hk]
    rw [savingLoop_append]
    rw [savingLoop_all_ok env k e hsave (repos.take k) 0
      (fun j hj1 hj2 => by rw [htk] at hj2; omega)]
    rw [htk]
    simp only [Nat.zero_add]
    rw [savingLoop_fail_head env k e hsave _ _ (fun j hj1 hj2 => by omega)]
    simp only [SavingOut.mk.injEq, List.nil_append, hdk]
    refine ⟨by omega, ?_, by omega⟩
    simp [List.get_eq_getElem]
  have hupdL := updatesLoop_trivial env hc hi hp (repos.take 20) 0
  simp only [syncUserRepositories, hu]
  rw [if_neg ht]
  simp only [hnd, Bool.false_eq_true, if_false, hfetch]
  simp only [hsavL, hupdL, hl]
  simp

/-- Three fetched repositories for the witness of
`syncUserRepositories_failure_isolation`. -/
def reposC5 : List Repo :=
  [⟨100, "zero", "a/zero", none, "https://example.test/a/zero", none, 1, [], none⟩,
   ⟨101, "one", "b/one", none, "https://example.test/b/one", none, 2, [], none⟩,
   ⟨102, "two", "c/two", none, "https://example.test/c/two", none, 3, [], none⟩]

/-- Oracle in which persisting the second repository (index 1) fails after
retry exhaustion and everything else succeeds. -/
def envC5 : SyncEnv :=
  { user := some ⟨7, "tok"⟩, settings := some ⟨true, 120, none⟩,
    fetchRepos := .ok reposC5,
    saveRepo := fun j =>
      if j = 1 then .error "DatabaseError: Failed to save repository" else .ok 0,
    commits := fun _ => .ok [], issues := fun _ => .ok [],
    prs := fun _ => .ok [], saveActivity := fun _ _ => .ok false,
    updateLastSync := .ok () }

/-- Witness for `syncUserRepositories_failure_isolation`: with 3 repos and repo
1 failing, the run succeeds with 2 repos synced, one error naming `b/one`,
and all 3 persistence attempts made. -/
theorem syncUserRepositories_failure_isolation_witness :
    (syncUserRepositories envC5 7).1.success = true ∧
    (syncUserRepositories envC5 7).1.reposSynced = 2 ∧
    (syncUserRepositories envC5 7).1.errors
      = ["Failed to save repo b/one: DatabaseError: Failed to save repository"] ∧
    (syncUserRepositories envC5 7).2.saveRepoCalls = 3 := by
  have h := syncUserRepositories_failure_isolation envC5 7 ⟨7, "tok"⟩ reposC5 1
    "DatabaseError: Failed to save repository" rfl (by decide) rfl rfl
    (by decide) rfl rfl rfl rfl rfl
  exact ⟨h.1, h.2.1, h.2.2.1, h.2.2.2⟩
